import Mathlib

/-!
Shallow embedding of the loan-prediction pipeline in `src/loan_web.py`.

The file models the submit-handling branch of `run()` (lines 88-124), the
duration lookup (lines 80-81), the feature-record construction
(lines 96-105), the result presentation (lines 113-122) and the cached
model loader `load_model` (lines 12-27).  Streamlit widget calls
(`st.error`, `st.success`) and the model-prediction call are recorded as
events; Python exceptions raised by the model are modelled with `Except`.
-/

namespace LoanWeb

/-- The raw field values the Streamlit widgets hand to the submit branch
(`loan_web.py` lines 45-85).  Selectbox widgets yield indices and the
number inputs yield numbers; both are modelled over `Int` so that the
behaviour on out-of-range values can be stated. -/
structure RawInput where
  account_no : String
  fn : String
  gender : Int
  marital : Int
  dependents : Int
  education : Int
  employment : Int
  mon_income : Int
  co_mon_income : Int
  loan_amount : Int
  duration : Int
  area : Int

/-- The trained classifier, opaque except for its batched `predict`
operation.  A Python exception raised during prediction is modelled as
`Except.error` carrying the exception text. -/
structure Model where
  predict : List (String × Int) → Except String (List Int)

/-- The duration lookup `duration_map.get(duration, 60)` with
`duration_map = {0: 60, 1: 180, 2: 240, 3: 360, 4: 480}`
(`loan_web.py` lines 80-81). -/
def duration_map_get (duration : Int) : Int :=
  if duration = 0 then 60
  else if duration = 1 then 180
  else if duration = 2 then 240
  else if duration = 3 then 360
  else if duration = 4 then 480
  else 60

/-- The column names of the feature record (`loan_web.py` lines 102-104). -/
def columns : List String :=
  ["Gender", "Married", "Dependents", "Education", "Self_Employed",
   "ApplicantIncome", "CoapplicantIncome", "LoanAmount",
   "Loan_Amount_Term", "Property_Area"]

/-- The single row of feature values (`loan_web.py` lines 96-99). -/
def valuesRow (r : RawInput) : List Int :=
  [r.gender, r.marital, r.dependents, r.education, r.employment,
   r.mon_income, r.co_mon_income, r.loan_amount,
   duration_map_get r.duration, r.area]

/-- The feature record `pd.DataFrame(values, columns=columns)`
(`loan_web.py` line 105), modelled as the list of column-name and value
pairs of its single row. -/
def features (r : RawInput) : List (String × Int) :=
  columns.zip (valuesRow r)

/-- The validation error text (`loan_web.py` line 91). -/
def requiredFieldsMsg : String :=
  "Please fill in all required fields (Account Number and Full Name)."

/-- The model-unavailable error text (`loan_web.py` line 93). -/
def modelNotLoadedMsg : String :=
  "The prediction model is not loaded. Please ensure the model file is available."

/-- The missing-artifact error text (`loan_web.py` line 23). -/
def modelNotFoundMsg : String :=
  "Model file not found. Ensure \x27model.pkl\x27 exists in the same directory as the script."

/-- The prediction-failure error text (`loan_web.py` line 124). -/
def predictionErrorMsg (e : String) : String :=
  "An error occurred during prediction: " ++ e

/-- The negative decision message (`loan_web.py` lines 115-117). -/
def negMessage (fn account_no : String) : String :=
  "Hello " ++ fn ++ ", Account Number: " ++ account_no ++
    ". Based on our calculations, you are not eligible for the loan."

/-- The positive decision message (`loan_web.py` lines 120-122). -/
def posMessage (fn account_no : String) : String :=
  "Hello " ++ fn ++ ", Account Number: " ++ account_no ++
    ". Congratulations! You are eligible for the loan."

/-- The observable actions of the submit branch: Streamlit error and
success notices, and the call into the model. -/
inductive Event where
  | stError (msg : String)
  | stSuccess (msg : String)
  | predictCall (feats : List (String × Int))
  deriving DecidableEq

/-- The result display (`loan_web.py` lines 113-122): label `0` renders
the negative notice, every other label the positive one. -/
def present (result : Int) (fn account_no : String) : Event :=
  if result = 0 then Event.stError (negMessage fn account_no)
  else Event.stSuccess (posMessage fn account_no)

/-- Python `prediction[0]` (`loan_web.py` line 110): indexing an empty
batch raises, which the surrounding `except` catches. -/
def extractFirst (l : List Int) : Except String Int :=
  match l with
  | [] => Except.error "index 0 is out of bounds"
  | x :: _ => Except.ok x

/-- The submit branch of `run()` (`loan_web.py` lines 88-124): the
emptiness check on the mandatory fields (Python `not s` on a string is
true exactly when the string is empty), the model-availability check, the
feature-record build, the guarded prediction call and the presentation of
the result.  Returns the list of observable events. -/
def run (model : Option Model) (r : RawInput) : List Event :=
  if r.account_no = "" ∨ r.fn = "" then
    [Event.stError requiredFieldsMsg]
  else
    match model with
    | none => [Event.stError modelNotLoadedMsg]
    | some m =>
      match (m.predict (features r)).bind extractFirst with
      | Except.ok result =>
          [Event.predictCall (features r), present result r.fn r.account_no]
      | Except.error e =>
          [Event.predictCall (features r), Event.stError (predictionErrorMsg e)]

/-- The persistent store backing `pickle.load(open(pickle_path, "rb"))`:
`none` models an absent `model.pkl` (a `FileNotFoundError` on open). -/
structure Storage where
  modelFile : Option Model

/-- The memo state of the `@st.cache_data` decorator on `load_model`
(`loan_web.py` line 12), together with a count of storage reads used to
state the no-re-read property. -/
structure CacheState where
  cached : Option (Option Model)
  reads : Nat

/-- `load_model` (`loan_web.py` lines 12-24): on a cache hit the memoised
value is returned with no storage access; on a miss the file is read, a
missing file is caught, reported with `st.error` and `None` is returned,
and the outcome is memoised either way. -/
def load_model (st : Storage) (c : CacheState) :
    Option Model × CacheState × List Event :=
  match c.cached with
  | some v => (v, c, [])
  | none =>
    match st.modelFile with
    | some m => (some m, ⟨some (some m), c.reads + 1⟩, [])
    | none =>
        (none, ⟨some none, c.reads + 1⟩, [Event.stError modelNotFoundMsg])

/-- `sub` occurs as a contiguous substring of `s`. -/
def strContains (s sub : String) : Prop :=
  ∃ pre post : String, s = pre ++ sub ++ post

/-- A model that classifies every feature record as eligible. -/
def mOk : Model := ⟨fun _ => Except.ok [1]⟩

/-- A model that classifies every feature record with label 2. -/
def mTwo : Model := ⟨fun _ => Except.ok [2]⟩

/-- A model whose prediction call always raises. -/
def mFail : Model := ⟨fun _ => Except.error "boom"⟩

/-- The raw input of end-to-end scenario 1 of the spec. -/
def sampleInput : RawInput :=
  ⟨"12345678901", "Asha", 1, 1, 1, 1, 0, 5000, 0, 100, 3, 2⟩

/-- A raw input with a negative applicant income. -/
def negInput : RawInput := { sampleInput with mon_income := -1 }

/-- A raw input whose identity fields are single spaces. -/
def wsInput : RawInput := { sampleInput with account_no := " ", fn := " " }

/-- C1: For every raw input, the feature record has exactly ten columns
whose order and names are Gender, Married, Dependents, Education,
Self_Employed, ApplicantIncome, CoapplicantIncome, LoanAmount,
Loan_Amount_Term, Property_Area. -/
theorem features_schema (r : RawInput) :
    (features r).map Prod.fst =
      ["Gender", "Married", "Dependents", "Education", "Self_Employed",
       "ApplicantIncome", "CoapplicantIncome", "LoanAmount",
       "Loan_Amount_Term", "Property_Area"] ∧
    (features r).length = 10 :=
  ⟨rfl, rfl⟩

/-- C4: The duration resolver maps indices 0, 1, 2, 3, 4 to 60, 180, 240,
360, 480 respectively, maps every other index to the default 60, and its
result always lies in the set of five term values; it is a total function
and never fails. -/
theorem duration_resolver_spec :
    duration_map_get 0 = 60 ∧ duration_map_get 1 = 180 ∧
    duration_map_get 2 = 240 ∧ duration_map_get 3 = 360 ∧
    duration_map_get 4 = 480 ∧
    (∀ d : Int, d ∉ ([0, 1, 2, 3, 4] : List Int) → duration_map_get d = 60) ∧
    (∀ d : Int, duration_map_get d ∈ ([60, 180, 240, 360, 480] : List Int)) := by
  refine ⟨rfl, rfl, rfl, rfl, rfl, ?_, ?_⟩
  · intro d hd
    unfold duration_map_get
    split_ifs <;> simp_all
  · intro d
    unfold duration_map_get
    split_ifs <;> simp

/-- C4 witness: the out-of-range index 7 resolves to the default 60, a
member of the term-value set. -/
theorem duration_resolver_spec_witness :
    duration_map_get 7 = 60 ∧
    duration_map_get 7 ∈ ([60, 180, 240, 360, 480] : List Int) :=
  ⟨duration_resolver_spec.2.2.2.2.2.1 7 (by decide),
   duration_resolver_spec.2.2.2.2.2.2 7⟩

/-- C2: Whenever the account number or the full name is the empty string,
the submit branch emits only the validation error notice, and no
prediction call occurs. -/
theorem empty_fields_validation (model : Option Model) (r : RawInput)
    (h : r.account_no = "" ∨ r.fn = "") :
    run model r = [Event.stError requiredFieldsMsg] ∧
    ∀ feats, Event.predictCall feats ∉ run model r := by
  have hrun : run model r = [Event.stError requiredFieldsMsg] := by
    unfold run
    rw [if_pos h]
  exact ⟨hrun, by simp [hrun]⟩

/-- C2 witness: the empty full name with a loaded model yields the
validation error notice. -/
theorem empty_fields_validation_witness :
    run (some mOk) { sampleInput with fn := "" } =
      [Event.stError requiredFieldsMsg] :=
  (empty_fields_validation (some mOk) { sampleInput with fn := "" }
    (Or.inr rfl)).1

/-- C3 counterexample: on a raw input with a negative applicant income but
non-empty identity fields, the submit branch performs no numeric re-check:
it does not fail with a validation error, it invokes the prediction call
and presents a decision. -/
theorem numeric_recheck_counterexample :
    negInput.mon_income < 0 ∧
    run (some mOk) negInput =
      [Event.predictCall (features negInput),
       Event.stSuccess (posMessage "Asha" "12345678901")] ∧
    Event.stError requiredFieldsMsg ∉ run (some mOk) negInput := by
  refine ⟨by decide, rfl, ?_⟩
  decide

/-- C3 amended: before inference the submit branch re-checks only the two
identity fields for emptiness; the numeric income and loan fields are not
re-checked, so whenever account number and full name are non-empty the
pipeline proceeds straight to the prediction call regardless of the sign
of the numeric fields. -/
theorem validation_ignores_numeric_fields (m : Model) (r : RawInput)
    (ha : r.account_no ≠ "") (hf : r.fn ≠ "") :
    (run (some m) r).head? = some (Event.predictCall (features r)) := by
  unfold run
  rw [if_neg (by simp [ha, hf])]
  cases hx : (m.predict (features r)).bind extractFirst <;> simp [hx]

/-- C3 amended witness: the negative-income input proceeds to the
prediction call. -/
theorem validation_ignores_numeric_fields_witness :
    (run (some mOk) negInput).head? =
      some (Event.predictCall (features negInput)) :=
  validation_ignores_numeric_fields mOk negInput (by decide) (by decide)

/-- C5: The result display is a total function; on label 0 it renders the
negative notice and on label 1 the positive notice, and both notices
contain the full name, the account number and their respective
"not eligible" and congratulatory "eligible" phrases. -/
theorem present_spec (fn acct : String) :
    present 0 fn acct = Event.stError (negMessage fn acct) ∧
    present 1 fn acct = Event.stSuccess (posMessage fn acct) ∧
    strContains (negMessage fn acct) fn ∧
    strContains (negMessage fn acct) acct ∧
    strContains (negMessage fn acct) "not eligible" ∧
    strContains (posMessage fn acct) fn ∧
    strContains (posMessage fn acct) acct ∧
    strContains (posMessage fn acct) "eligible" ∧
    strContains (posMessage fn acct) "Congratulations" := by
  refine ⟨rfl, rfl, ?_, ?_, ?_, ?_, ?_, ?_, ?_⟩
  · exact ⟨"Hello ",
      ", Account Number: " ++ acct ++
        ". Based on our calculations, you are not eligible for the loan.",
      by simp [negMessage, String.append_assoc]⟩
  · exact ⟨"Hello " ++ fn ++ ", Account Number: ",
      ". Based on our calculations, you are not eligible for the loan.",
      by simp [negMessage, String.append_assoc]⟩
  · exact ⟨"Hello " ++ fn ++ ", Account Number: " ++ acct ++
        ". Based on our calculations, you are ",
      " for the loan.",
      by simp [negMessage, String.append_assoc]⟩
  · exact ⟨"Hello ",
      ", Account Number: " ++ acct ++
        ". Congratulations! You are eligible for the loan.",
      by simp [posMessage, String.append_assoc]⟩
  · exact ⟨"Hello " ++ fn ++ ", Account Number: ",
      ". Congratulations! You are eligible for the loan.",
      by simp [posMessage, String.append_assoc]⟩
  · exact ⟨"Hello " ++ fn ++ ", Account Number: " ++ acct ++
        ". Congratulations! You are ",
      " for the loan.",
      by simp [posMessage, String.append_assoc]⟩
  · exact ⟨"Hello " ++ fn ++ ", Account Number: " ++ acct ++ ". ",
      "! You are eligible for the loan.",
      by simp [posMessage, String.append_assoc]⟩

/-- C6: Whenever the model raises during prediction, the submit branch
catches the exception and emits the structured prediction-error notice
carrying the underlying cause; `run` is a total function, so nothing
propagates as an unhandled crash. -/
theorem inference_failure_boundary (m : Model) (r : RawInput) (e : String)
    (ha : r.account_no ≠ "") (hf : r.fn ≠ "")
    (hp : m.predict (features r) = Except.error e) :
    run (some m) r =
      [Event.predictCall (features r),
       Event.stError (predictionErrorMsg e)] ∧
    strContains (predictionErrorMsg e) e := by
  constructor
  · unfold run
    rw [if_neg (by simp [ha, hf])]
    simp [hp, Except.bind]
  · exact ⟨"An error occurred during prediction: ", "",
      by simp [predictionErrorMsg]⟩

/-- C6 witness: a model raising "boom" on scenario-1 input yields the
prediction-error notice with the cause. -/
theorem inference_failure_boundary_witness :
    run (some mFail) sampleInput =
      [Event.predictCall (features sampleInput),
       Event.stError (predictionErrorMsg "boom")] :=
  (inference_failure_boundary mFail sampleInput "boom"
    (by decide) (by decide) rfl).1

/-- C7: The cached loader is idempotent: a second call on the state left
by a first call returns the very same artifact value, performs no further
storage read, and leaves the cache state unchanged, so every later call
behaves identically. -/
theorem load_model_idempotent (st : Storage) (c : CacheState) :
    (load_model st (load_model st c).2.1).1 = (load_model st c).1 ∧
    (load_model st (load_model st c).2.1).2.1.reads =
      (load_model st c).2.1.reads ∧
    (load_model st (load_model st c).2.1).2.1 = (load_model st c).2.1 := by
  cases hc : c.cached with
  | some v => simp [load_model, hc]
  | none => cases hs : st.modelFile <;> simp [load_model, hc, hs]

/-- C8: With the artifact file absent, the first load returns no model and
reports the missing-file error notice (without crashing, as the loader is
total); a repeat load performs no further read; and with no model loaded a
submission with non-empty identity fields reports that the model is not
loaded while no submission whatsoever reaches the prediction call. -/
theorem model_absent_behavior (c : CacheState) (r : RawInput)
    (hc : c.cached = none)
    (ha : r.account_no ≠ "") (hf : r.fn ≠ "") :
    (load_model ⟨none⟩ c).1 = none ∧
    (load_model ⟨none⟩ c).2.2 = [Event.stError modelNotFoundMsg] ∧
    (load_model ⟨none⟩ (load_model ⟨none⟩ c).2.1).2.1.reads =
      (load_model ⟨none⟩ c).2.1.reads ∧
    run none r = [Event.stError modelNotLoadedMsg] ∧
    (∀ rr : RawInput, ∀ feats,
        Event.predictCall feats ∉ run none rr) := by
  refine ⟨by simp [load_model, hc], by simp [load_model, hc],
    by simp [load_model, hc], ?_, ?_⟩
  · unfold run
    rw [if_neg (by simp [ha, hf])]
  · intro rr feats
    unfold run
    split_ifs <;> simp

/-- C8 witness: on a fresh cache with the artifact absent, the load yields
no model and the scenario-1 submission reports the model unavailable. -/
theorem model_absent_behavior_witness :
    (load_model ⟨none⟩ ⟨none, 0⟩).1 = none ∧
    run none sampleInput = [Event.stError modelNotLoadedMsg] :=
  ⟨(model_absent_behavior ⟨none, 0⟩ sampleInput rfl
      (by decide) (by decide)).1,
   (model_absent_behavior ⟨none, 0⟩ sampleInput rfl
      (by decide) (by decide)).2.2.2.1⟩

/-- C9: The rendered notice is the negative one exactly when the extracted
prediction result equals 0; every non-zero label, not only 1, renders the
positive congratulatory notice; and the submit branch renders the display
of the first batch entry returned by the model. -/
theorem negative_message_iff_zero (res : Int) (fn acct : String)
    (m : Model) (r : RawInput) (rest : List Int)
    (ha : r.account_no ≠ "") (hf : r.fn ≠ "")
    (hp : m.predict (features r) = Except.ok (res :: rest)) :
    (present res fn acct = Event.stError (negMessage fn acct) ↔ res = 0) ∧
    (res ≠ 0 → present res fn acct = Event.stSuccess (posMessage fn acct)) ∧
    run (some m) r =
      [Event.predictCall (features r), present res r.fn r.account_no] := by
  refine ⟨?_, ?_, ?_⟩
  · by_cases h : res = 0 <;> simp [present, h]
  · intro h
    simp [present, h]
  · unfold run
    rw [if_neg (by simp [ha, hf])]
    simp [hp, Except.bind, extractFirst]

/-- C9 witness: the non-zero label 2 renders the positive notice. -/
theorem negative_message_iff_zero_witness :
    present 2 "Asha" "12345678901" =
      Event.stSuccess (posMessage "Asha" "12345678901") :=
  (negative_message_iff_zero 2 "Asha" "12345678901" mTwo sampleInput []
    (by decide) (by decide) rfl).2.1 (by decide)

/-- C10: The mandatory-field check rejects exactly the raw inputs whose
account number or full name is the empty string; identity fields made
solely of whitespace characters pass validation and, with a loaded model,
the pipeline proceeds to the prediction call. -/
theorem validation_rejects_only_empty :
    (∀ (model : Option Model) (r : RawInput),
        run model r = [Event.stError requiredFieldsMsg] ↔
          (r.account_no = "" ∨ r.fn = "")) ∧
    (∀ (m : Model) (r : RawInput),
        r.account_no ≠ "" → r.fn ≠ "" →
        (∀ ch ∈ r.account_no.data, ch.isWhitespace) →
        (∀ ch ∈ r.fn.data, ch.isWhitespace) →
        (run (some m) r).head? =
          some (Event.predictCall (features r))) := by
  constructor
  · intro model r
    by_cases hc : r.account_no = "" ∨ r.fn = ""
    · simp [run, hc]
    · cases model with
      | none => simp [run, hc, requiredFieldsMsg, modelNotLoadedMsg]
      | some m =>
          cases hx : (m.predict (features r)).bind extractFirst <;>
            simp [run, hc, hx]
  · intro m r ha hf _ _
    unfold run
    rw [if_neg (by simp [ha, hf])]
    cases hx : (m.predict (features r)).bind extractFirst <;> simp [hx]

/-- C10 witness: single-space account number and full name pass validation
and reach the prediction call. -/
theorem validation_rejects_only_empty_witness :
    (run (some mOk) wsInput).head? =
      some (Event.predictCall (features wsInput)) :=
  validation_rejects_only_empty.2 mOk wsInput
    (by decide) (by decide) (by decide) (by decide)

end LoanWeb
